import Mathlib

/-!
# Verification of the AFIP electronic-invoicing core

Shallow embedding of the core of the SistemaLogistico-facturacion repository:
the WSFE invoicing service (src/services/wsfe.py), the WSAA authentication
flow (src/core/auth.py), the XML utilities (src/utils/xml_utils.py), the data
model (src/core/models.py) and the request schema (src/schemas/factura.py).

Python floats are modelled as rationals, datetimes as integer (or natural)
seconds, fallible code as Except/Option values.  Remote SOAP responses are
modelled as explicit structures; the network exchange itself is a parameter.
-/

namespace Facturacion

/-! ## Data model (src/core/models.py) -/

/-- Detail of a VAT entry (`VatDetail`, src/core/models.py). -/
structure VatDetail where
  Id : ℤ
  BaseImp : ℚ
  Importe : ℚ
  deriving Repr, DecidableEq

/-- Detail of a tribute entry (`TributeDetail`, src/core/models.py). -/
structure TributeDetail where
  Id : ℤ
  Desc : String
  BaseImp : ℚ
  Alic : ℚ
  Importe : ℚ
  deriving Repr, DecidableEq

/-- `InvoiceRequest` (src/core/models.py).  Optional fields keep their
Python defaults.  Amount fields (Python floats) are rationals. -/
structure InvoiceRequest where
  sales_point : ℤ
  voucher_type : ℤ
  concept : ℤ := 1
  doc_type : ℤ := 80
  doc_number : String
  total_amount : ℚ
  net_amount : ℚ
  vat_amount : ℚ
  non_taxable_amount : ℚ := 0
  exempt_amount : ℚ := 0
  tributes_amount : ℚ := 0
  service_start_date : Option String := none
  service_end_date : Option String := none
  payment_due_date : Option String := none
  currency : String := "PES"
  currency_rate : ℚ := 1
  vat_details : Option (List VatDetail) := none
  tributes_details : Option (List TributeDetail) := none
  condicion_iva_receptor_id : Option ℤ := none
  can_mis_mon_ext : String := "N"
  deriving Repr, DecidableEq

/-- `InvoiceResponse` (src/core/models.py). -/
structure InvoiceResponse where
  cae : String
  cae_expiration : String
  voucher_number : ℤ
  voucher_date : String
  status : String := "A"
  observations : Option (List String) := none
  errors : Option (List String) := none
  deriving Repr, DecidableEq

/-- Floor of a rational as an integer (numerator floor-divided by the
denominator). -/
def ratFloor (q : ℚ) : ℤ := Int.fdiv q.num (q.den : ℤ)

/-- Python `round(x, 2)`: round half to even at two decimal places. -/
def round2 (q : ℚ) : ℚ :=
  let s : ℚ := q * 100
  let f : ℤ := ratFloor s
  let r : ℚ := s - (f : ℚ)
  let n : ℤ :=
    if r < 1/2 then f
    else if 1/2 < r then f + 1
    else if f % 2 = 0 then f else f + 1
  (n : ℚ) / 100

/-! ## WSFE error formatting (src/utils/xml_utils.py, `format_wsfe_error`) -/

/-- One `Err` entry of a WSFE `Errors` node. -/
structure WsfeErr where
  Code : ℤ
  Msg : String
  deriving Repr, DecidableEq

/-- `format_wsfe_error` (src/utils/xml_utils.py): renders each error as
`[code] msg` and joins the entries with `; `.  A missing/falsy errors
object yields the unknown-error text. -/
def format_wsfe_error (errors : Option (List WsfeErr)) : String :=
  match errors with
  | none => "Error desconocido"
  | some errs =>
      String.intercalate "; "
        (errs.map (fun e => "[" ++ toString e.Code ++ "] " ++ e.Msg))

/-! ## WSFE: last authorized voucher (src/services/wsfe.py, `get_last_voucher`) -/

/-- The `FECompUltimoAutorizado` SOAP result: an optional error list and the
last authorized voucher number. -/
structure FECompUltimoResult where
  Errors : Option (List WsfeErr)
  CbteNro : ℤ
  deriving Repr, DecidableEq

/-- `WSFEService.get_last_voucher` (src/services/wsfe.py lines 95-127),
applied to the remote result: raises on a present error list, otherwise
returns `result.CbteNro`. -/
def get_last_voucher (result : FECompUltimoResult) : Except String ℤ :=
  match result.Errors with
  | some errs => .error ("Error de AFIP: " ++ format_wsfe_error (some errs))
  | none => .ok result.CbteNro

/-! ## WSFE: building the authorization request
(src/services/wsfe.py, `create_invoice`, lines 296-365) -/

/-- One `FECAEDetRequest` detail record as assembled by `create_invoice`.
`DocNro` is `int(invoice_request.doc_number)`; the failure of `int()` on a
non-numeric string is modelled by `none`. -/
structure FECAEDetRequest where
  Concepto : ℤ
  DocTipo : ℤ
  DocNro : Option ℤ
  CbteDesde : ℤ
  CbteHasta : ℤ
  CbteFch : String
  ImpTotal : ℚ
  ImpTotConc : ℚ
  ImpNeto : ℚ
  ImpOpEx : ℚ
  ImpIVA : ℚ
  ImpTrib : ℚ
  MonId : String
  MonCotiz : ℚ
  FchServDesde : Option String
  FchServHasta : Option String
  FchVtoPago : Option String
  Iva : Option (List VatDetail)
  Tributos : Option (List TributeDetail)
  deriving Repr, DecidableEq

/-- The `FeCabReq` header of the authorization request. -/
structure FeCabReq where
  CantReg : ℕ
  PtoVta : ℤ
  CbteTipo : ℤ
  deriving Repr, DecidableEq

/-- The full `FeCAEReq` payload submitted to `FECAESolicitar`. -/
structure FeCAEReq where
  cab : FeCabReq
  det : List FECAEDetRequest
  deriving Repr, DecidableEq

/-- Python truthiness test `xs and len(xs) > 0` on an optional list:
the list is attached only when present and non-empty. -/
def attachIfNonEmpty {α : Type} (xs : Option (List α)) : Option (List α) :=
  match xs with
  | some l => if l.isEmpty then none else some l
  | none => none

/-- The detail record built by `create_invoice` (src/services/wsfe.py lines
307-365) from the request, the last authorized voucher number returned by
`get_last_voucher`, and the current date string (AAAAMMDD).
Voucher range is `last_voucher + 1 .. last_voucher + 1`; service-period
dates are attached only for concepts 2 and 3, defaulting to the current
date; VAT and tribute arrays are attached only when non-empty. -/
def buildInvoiceDetail (req : InvoiceRequest) (last_voucher : ℤ)
    (current_date : String) : FECAEDetRequest :=
  { Concepto := req.concept
    DocTipo := req.doc_type
    DocNro := req.doc_number.toInt?
    CbteDesde := last_voucher + 1
    CbteHasta := last_voucher + 1
    CbteFch := current_date
    ImpTotal := round2 req.total_amount
    ImpTotConc := round2 req.non_taxable_amount
    ImpNeto := round2 req.net_amount
    ImpOpEx := round2 req.exempt_amount
    ImpIVA := round2 req.vat_amount
    ImpTrib := round2 req.tributes_amount
    MonId := req.currency
    MonCotiz := req.currency_rate
    FchServDesde :=
      if req.concept = 2 ∨ req.concept = 3 then
        some (req.service_start_date.getD current_date)
      else none
    FchServHasta :=
      if req.concept = 2 ∨ req.concept = 3 then
        some (req.service_end_date.getD current_date)
      else none
    FchVtoPago :=
      if req.concept = 2 ∨ req.concept = 3 then
        some (req.payment_due_date.getD current_date)
      else none
    Iva := attachIfNonEmpty req.vat_details
    Tributos := attachIfNonEmpty req.tributes_details }

/-- The complete `FeCAEReq` submitted by `create_invoice`: a header with
`CantReg = 1` and exactly one detail record. -/
def buildFeCAEReq (req : InvoiceRequest) (last_voucher : ℤ)
    (current_date : String) : FeCAEReq :=
  { cab := { CantReg := 1, PtoVta := req.sales_point, CbteTipo := req.voucher_type }
    det := [buildInvoiceDetail req last_voucher current_date] }

/-! ## WSFE: interpreting the authorization response
(src/services/wsfe.py, `create_invoice`, lines 370-397) -/

/-- One `FECAEDetResponse` detail of the `FECAESolicitar` result. -/
structure FECAEDetResponse where
  Resultado : String
  CAE : String
  CAEFchVto : String
  CbteDesde : ℤ
  Observaciones : Option (List String)
  deriving Repr, DecidableEq

/-- The `FECAESolicitar` result: an optional top-level error list and the
detail responses (`FeDetResp.FECAEDetResponse`). -/
structure FECAESolicitarResult where
  Errors : Option (List WsfeErr)
  FECAEDetResponse : List FECAEDetResponse
  deriving Repr, DecidableEq

/-- Python truthiness of the `Observaciones` node: observations are kept
only when the node is present and holds at least one entry. -/
def collectObservations (obs : Option (List String)) : Option (List String) :=
  match obs with
  | some l => if l.isEmpty then none else some l
  | none => none

/-- The response-interpretation tail of `create_invoice` (src/services/wsfe.py
lines 370-397): a present top-level error list raises `Error de AFIP: ...`;
otherwise the first detail response is turned into an `InvoiceResponse` whose
status is `A` when `Resultado == "A"` and `R` otherwise.  Indexing an empty
detail list raises (modelled as an error). -/
def interpretCaeResult (result : FECAESolicitarResult) (current_date : String) :
    Except String InvoiceResponse :=
  match result.Errors with
  | some errs => .error ("Error de AFIP: " ++ format_wsfe_error (some errs))
  | none =>
      match result.FECAEDetResponse.head? with
      | none => .error "IndexError: list index out of range"
      | some d =>
          .ok { cae := d.CAE
                cae_expiration := d.CAEFchVto
                voucher_number := d.CbteDesde
                voucher_date := current_date
                status := if d.Resultado = "A" then "A" else "R"
                observations := collectObservations d.Observaciones
                errors := none }

/-! ## WSFE: sales-point catalog (src/services/wsfe.py, `get_sales_points`) -/

/-- One `PtoVenta` entry of the sales-point catalog. -/
structure PtoVenta where
  Nro : ℤ
  EmisionTipo : String
  Bloqueado : String
  deriving Repr, DecidableEq

/-- The `FEParamGetPtosVenta` SOAP result. -/
structure FEParamGetPtosVentaResult where
  Errors : Option (List WsfeErr)
  PtoVenta : List PtoVenta
  deriving Repr, DecidableEq

/-- `WSFEService.get_sales_points` (src/services/wsfe.py lines 254-277),
applied to the remote result.  The `testing` flag selects the environment
(homologation vs production); the body does not consult it: a present error
list raises `Error de AFIP: ...` in either environment, otherwise the
remote list is returned as-is. -/
def get_sales_points (testing : Bool) (result : FEParamGetPtosVentaResult) :
    Except String (List PtoVenta) :=
  match result.Errors with
  | some errs => .error ("Error de AFIP: " ++ format_wsfe_error (some errs))
  | none => .ok result.PtoVenta

/-! ## Authentication data and the ticket cache (src/core/models.py,
src/core/auth.py) -/

/-- `AfipAuth` (src/core/models.py).  `expiration` is a datetime modelled
as integer seconds. -/
structure AfipAuth where
  token : String
  sign : String
  cuit : String
  expiration : ℤ
  deriving Repr, DecidableEq

/-- `AfipAuth.is_valid` (src/core/models.py lines 90-93):
`datetime.now() < self.expiration`, strictly. -/
def AfipAuth.is_valid (a : AfipAuth) (now : ℤ) : Bool :=
  now < a.expiration

/-- `AfipAuthenticator._load_auth_from_cache` (src/core/auth.py lines
70-99).  The cache slot for one `(service, cuit, environment)` key:
`none` models a missing file; `some (.error _)` models a file whose
`pickle.load` raises (corrupt/unreadable); `some (.ok a)` a deserialized
`AfipAuth`.  A raise is caught and turned into `None`; an expired entry is
reported as `None` as well.  The function is total: no exception reaches
the caller. -/
def load_auth_from_cache (entry : Option (Except String AfipAuth))
    (now : ℤ) : Option AfipAuth :=
  match entry with
  | none => none
  | some (.error _) => none
  | some (.ok a) => if a.is_valid now then some a else none

/-- State of the authenticator for one cache key: the cache slot and a
count of remote `loginCms` exchanges performed so far. -/
structure AuthState where
  cache : Option (Except String AfipAuth)
  exchanges : ℕ
  deriving Repr

/-- The parsed outcome of one remote `loginCms` exchange (token, sign and
expiration as produced by `parse_wsaa_response`). -/
structure RemoteLogin where
  token : String
  sign : String
  expiration : ℤ
  deriving Repr, DecidableEq

/-- `AfipAuthenticator.authenticate` (src/core/auth.py lines 118-191) for
one service key, on the success path: unless `force_new`, a valid cached
ticket is returned without any remote exchange; otherwise the TRA is built,
signed and exchanged remotely (counted in `exchanges`), the response is
parsed into an `AfipAuth`, saved to the cache, and returned. -/
def authenticate (st : AuthState) (cuit : String) (now : ℤ)
    (force_new : Bool) (remote : RemoteLogin) : AfipAuth × AuthState :=
  match (if force_new then none else load_auth_from_cache st.cache now) with
  | some cached => (cached, st)
  | none =>
      let auth : AfipAuth :=
        { token := remote.token, sign := remote.sign, cuit := cuit
          expiration := remote.expiration }
      (auth, { cache := some (.ok auth), exchanges := st.exchanges + 1 })

/-- The exception handlers of `AfipAuthenticator.authenticate`
(src/core/auth.py lines 193-207): the kind of failure raised by the body. -/
inductive AuthFailure where
  | connectTimeout
  | readTimeout
  | other (msg : String) (tyName : String)
  deriving Repr, DecidableEq

/-- Python `sub in s` on strings. -/
def strIncludes (sub s : String) : Bool :=
  decide (sub.data <:+: s.data)

/-- The message of the exception re-raised by `authenticate` for each
failure kind (src/core/auth.py lines 193-207): a connection-establishment
timeout, a read timeout, and any other exception — the latter re-raised
verbatim when its message mentions `Firma inválida`, otherwise wrapped with
the name of the underlying exception type. -/
def handleAuthFailure : AuthFailure → String
  | .connectTimeout => "Error de red: No se pudo conectar con AFIP (WSAA)."
  | .readTimeout => "Error de red: AFIP (WSAA) no respondió a tiempo."
  | .other msg tyName =>
      if strIncludes "Firma inválida" msg then msg
      else "Firma inválida o algoritmo no soportado (posible causa subyacente: "
        ++ tyName ++ ")"

/-! ## TRA builder (src/utils/xml_utils.py, `create_tra_xml`)

Timestamps: Python `datetime.strftime("%Y-%m-%dT%H:%M:%S")` is modelled over
integer seconds of (Argentina-local) civil time, using the standard
days-to-civil-date conversion and zero-padded fixed-width digit rendering. -/

/-- The character of a single decimal digit. -/
def digitChar (d : ℕ) : Char := Char.ofNat (48 + d)

/-- Zero-padded two-digit rendering (`%m`, `%d`, `%H`, `%M`, `%S`),
exact for values below 100. -/
def pad2 (n : ℕ) : List Char := [digitChar (n / 10), digitChar (n % 10)]

/-- Zero-padded four-digit rendering (`%Y`), exact for values below 10000. -/
def pad4 (n : ℕ) : List Char :=
  [digitChar (n / 1000), digitChar (n / 100 % 10), digitChar (n / 10 % 10),
    digitChar (n % 10)]

/-- A civil calendar date. -/
structure CivilDate where
  year : ℕ
  month : ℕ
  day : ℕ
  deriving Repr, DecidableEq

/-- Days since 1970-01-01 to civil date (proleptic Gregorian calendar,
standard era/day-of-era decomposition as used by datetime libraries). -/
def civilFromDays (days : ℕ) : CivilDate :=
  let z := days + 719468
  let era := z / 146097
  let doe := z % 146097
  let yoe := (doe - doe / 1460 + doe / 36524 - doe / 146096) / 365
  let doy := doe - (365 * yoe + yoe / 4 - yoe / 100)
  let mp := (5 * doy + 2) / 153
  let d := doy - (153 * mp + 2) / 5 + 1
  let m := if mp < 10 then mp + 3 else mp - 9
  { year := yoe + era * 400 + (if m ≤ 2 then 1 else 0), month := m, day := d }

/-- `strftime("%Y-%m-%dT%H:%M:%S")` over seconds of civil time. -/
def fmtTimestamp (t : ℕ) : String :=
  let cd := civilFromDays (t / 86400)
  let hh := t % 86400 / 3600
  let mi := t % 3600 / 60
  let ss := t % 60
  String.mk (pad4 cd.year ++
    [Char.ofNat 45] ++ pad2 cd.month ++ [Char.ofNat 45] ++ pad2 cd.day ++
    [Char.ofNat 84] ++ pad2 hh ++ [Char.ofNat 58] ++ pad2 mi ++
    [Char.ofNat 58] ++ pad2 ss)

/-- Checks the shape `YYYY-MM-DDTHH:MM:SS`: nineteen characters, digits in
the date/time positions, the literal separators in between. -/
def isTimestampFormat (s : String) : Bool :=
  match s.data with
  | [y1, y2, y3, y4, c1, m1, m2, c2, d1, d2, c3, h1, h2, c4, n1, n2, c5, s1, s2] =>
      [y1, y2, y3, y4, m1, m2, d1, d2, h1, h2, n1, n2, s1, s2].all Char.isDigit
        && (c1 == Char.ofNat 45) && (c2 == Char.ofNat 45)
        && (c3 == Char.ofNat 84) && (c4 == Char.ofNat 58)
        && (c5 == Char.ofNat 58)
  | _ => false

/-- `create_tra_xml` (src/utils/xml_utils.py lines 11-50).  `nowArg` is the
current Argentina-local civil time in seconds; the builder shifts it ten
minutes backwards (the clock-skew mitigation), takes the expiration at
`generation + ttl` seconds, renders both with `%Y-%m-%dT%H:%M:%S`, derives
the unique id from the shifted timestamp, and assembles the
`loginTicketRequest` document. -/
def create_tra_xml (service : String) (ttl : ℕ) (nowArg : ℕ) : String :=
  let now := nowArg - 600
  let expiration := now + ttl
  let generation_time := fmtTimestamp now
  let expiration_time := fmtTimestamp expiration
  let unique_id := toString now
  "<?xml version=\"1.0\" encoding=\"UTF-8\"?>\n" ++
  "<loginTicketRequest version=\"1.0\">\n" ++
  "    <header>\n" ++
  "        " ++ "<uniqueId>" ++ unique_id ++ "</uniqueId>" ++ "\n" ++
  "        " ++ "<generationTime>" ++ generation_time ++ "</generationTime>" ++ "\n" ++
  "        " ++ "<expirationTime>" ++ expiration_time ++ "</expirationTime>" ++ "\n" ++
  "    </header>\n" ++
  "    " ++ "<service>" ++ service ++ "</service>" ++ "\n" ++
  "</loginTicketRequest>"

/-- Substring containment between strings. -/
def strContains (s sub : String) : Prop :=
  sub.data <:+: s.data

/-! ## WSAA response parsing (src/utils/xml_utils.py, `parse_wsaa_response`) -/

/-- The three response shapes handled by `parse_wsaa_response`, plus the
unmatched case.  Each field holds what the corresponding extraction step
yields: for the raw-XML shape the text of the recursively found node (absent
node or empty text modelled as `none`/`some ""`), for the Zeep-object shape
the attribute values, for the mapping shape the nested `get` results. -/
inductive WsaaShape where
  | rawXml (token sign expirationTime : Option String)
  | zeepObj (token sign expirationTime : Option String)
  | mapping (token sign expirationTime : Option String)
  | unmatched
  deriving Repr, DecidableEq

/-- Python falsiness of an optional string: `None` or the empty string. -/
def pyFalsy : Option String → Bool
  | none => true
  | some s => s == ""

/-- The token extracted by the shape dispatch of `parse_wsaa_response`. -/
def wsaaToken : WsaaShape → Option String
  | .rawXml t _ _ => t
  | .zeepObj t _ _ => t
  | .mapping t _ _ => t
  | .unmatched => none

/-- The sign extracted by the shape dispatch of `parse_wsaa_response`. -/
def wsaaSign : WsaaShape → Option String
  | .rawXml _ s _ => s
  | .zeepObj _ s _ => s
  | .mapping _ s _ => s
  | .unmatched => none

/-- The expiration string extracted by the shape dispatch. -/
def wsaaExpiration : WsaaShape → Option String
  | .rawXml _ _ e => e
  | .zeepObj _ _ e => e
  | .mapping _ _ e => e
  | .unmatched => none

/-- The numeric value of a digit character. -/
def digitVal (c : Char) : ℕ := c.toNat - 48

/-- Civil date to days since 1970-01-01 (inverse of `civilFromDays` on
valid dates), for timestamp decoding. -/
def daysFromCivil (y m d : ℕ) : ℕ :=
  let y' := y - (if m ≤ 2 then 1 else 0)
  let era := y' / 400
  let yoe := y' % 400
  let doy := (153 * (m + (if 2 < m then 0 else 12) - 3) + 2) / 5 + d - 1
  let doe := yoe * 365 + yoe / 4 - yoe / 100 + doy
  era * 146097 + doe - 719468

/-- `datetime.strptime(s, "%Y-%m-%dT%H:%M:%S")` modelled as a format check
followed by decoding into seconds of civil time; a string that does not
match the format fails (`none`). -/
def parseTimestamp (s : String) : Option ℕ :=
  match s.data with
  | [y1, y2, y3, y4, c1, m1, m2, c2, d1, d2, c3, h1, h2, c4, n1, n2, c5, s1, s2] =>
      if ([y1, y2, y3, y4, m1, m2, d1, d2, h1, h2, n1, n2, s1, s2].all Char.isDigit
          && (c1 == Char.ofNat 45) && (c2 == Char.ofNat 45)
          && (c3 == Char.ofNat 84) && (c4 == Char.ofNat 58)
          && (c5 == Char.ofNat 58)) then
        some (86400 * daysFromCivil
            (1000 * digitVal y1 + 100 * digitVal y2 + 10 * digitVal y3 + digitVal y4)
            (10 * digitVal m1 + digitVal m2)
            (10 * digitVal d1 + digitVal d2)
          + 3600 * (10 * digitVal h1 + digitVal h2)
          + 60 * (10 * digitVal n1 + digitVal n2)
          + (10 * digitVal s1 + digitVal s2))
      else none
  | _ => none

/-- The credentials produced by `parse_wsaa_response`. -/
structure WsaaAuthData where
  token : String
  sign : String
  expiration : ℕ
  deriving Repr, DecidableEq

/-- The timestamp-cleanup step of `parse_wsaa_response`: a string longer
than nineteen characters (timezone or millisecond suffix) is truncated to
its first nineteen. -/
def truncate19 (es : String) : String :=
  if 19 < es.length then String.mk (es.data.take 19) else es

/-- `parse_wsaa_response` (src/utils/xml_utils.py lines 56-112): extract
token, sign and expiration according to the response shape; raise when
token or sign is missing or empty; truncate an over-long expiration string
to its first nineteen characters; parse it with
`strptime("%Y-%m-%dT%H:%M:%S")` (a missing or unparsable expiration
raises, caught and re-raised by the surrounding handler).  `finishParse`
is the final step: fail on an unparsable timestamp, otherwise assemble the
credentials from the extracted token and sign. -/
def finishParse (tok sg : String) (r : Option ℕ) : Except String WsaaAuthData :=
  match r with
  | none => .error "ValueError: time data does not match format"
  | some ts => .ok { token := tok, sign := sg, expiration := ts }

/-- The guard and shape dispatch of `parse_wsaa_response`
(src/utils/xml_utils.py lines 56-112): raise when token or sign is missing
or empty, then clean and parse the expiration timestamp. -/
def parse_wsaa_response (shape : WsaaShape) : Except String WsaaAuthData :=
  if pyFalsy (wsaaToken shape) || pyFalsy (wsaaSign shape) then
    .error "No se pudo extraer Token/Sign"
  else
    match wsaaExpiration shape with
    | none => .error "TypeError: strptime argument must be str"
    | some es =>
        finishParse ((wsaaToken shape).getD "") ((wsaaSign shape).getD "")
          (parseTimestamp (truncate19 es))

/-! ## Request schema validation (src/schemas/factura.py,
`FacturaRequestSchema.validate_total`)

Pydantic validator semantics: the `values` mapping passed to a field
validator contains exactly the fields declared (and validated) before the
field under validation, in declaration order. -/

/-- The field declaration order of `FacturaRequestSchema`
(src/schemas/factura.py lines 27-45). -/
def facturaFieldOrder : List String :=
  ["viaje_id", "sales_point", "voucher_type", "concept", "doc_type",
    "doc_number", "total_amount", "net_amount", "vat_amount",
    "non_taxable_amount", "exempt_amount", "tributes_amount",
    "service_start_date", "service_end_date", "payment_due_date",
    "currency", "currency_rate", "vat_details", "tributes_details"]

/-- The fields available in `values` while the validator of `field` runs:
those declared strictly before it. -/
def valuesAvailableAt (field : String) : List String :=
  facturaFieldOrder.takeWhile (fun f => f ≠ field)

/-- `FacturaRequestSchema.validate_total` (src/schemas/factura.py lines
72-88), abstracted over the set of field names present in `values`: when
both `net_amount` and `vat_amount` are present, the expected total is the
sum of the five component amounts (each read with `values.get(name, 0)`,
so a component not yet validated contributes `0`), and a deviation of more
than `0.01` raises a `ValueError`; otherwise the value passes unchecked. -/
def validate_total (values : List String) (v net vat non_tax exempt tributes : ℚ) :
    Except String ℚ :=
  if "net_amount" ∈ values ∧ "vat_amount" ∈ values then
    let get := fun (f : String) (x : ℚ) => if f ∈ values then x else 0
    let expected := get "net_amount" net + get "vat_amount" vat +
      get "non_taxable_amount" non_tax + get "exempt_amount" exempt +
      get "tributes_amount" tributes
    if 1/100 < |v - expected| then
      .error "El importe total no coincide con la suma de componentes"
    else .ok v
  else .ok v

/-- `validate_total` as pydantic actually runs it on `FacturaRequestSchema`:
with the `values` available when the `total_amount` field is validated. -/
def validate_total_as_run (v net vat non_tax exempt tributes : ℚ) :
    Except String ℚ :=
  validate_total (valuesAvailableAt "total_amount") v net vat non_tax exempt tributes

/-! ## Auxiliary definitions for the theorems -/

/-- Concatenating strings concatenates their character lists. -/
theorem string_data_append (a b : String) : (a ++ b).data = a.data ++ b.data := rfl

/-- Whether an `Except` value is a success. -/
def exceptIsOk {ε α : Type} : Except ε α → Bool
  | .ok _ => true
  | .error _ => false

/-- A sample invoice request (net 100, VAT 21, total 121). -/
def sampleReq : InvoiceRequest :=
  { sales_point := 1, voucher_type := 1, doc_number := "20111222333",
    total_amount := 121, net_amount := 100, vat_amount := 21 }

/-- A rejected detail response with observations attached. -/
def rejectedDetail : FECAEDetResponse :=
  { Resultado := "R", CAE := "", CAEFchVto := "", CbteDesde := 55,
    Observaciones := some ["[10048] Observacion de rechazo"] }

/-- A `FECAESolicitar` result whose single detail record is rejected with
observations attached and no top-level error list. -/
def rejectedResult : FECAESolicitarResult :=
  { Errors := none, FECAEDetResponse := [rejectedDetail] }

/-- An approved detail response. -/
def approvedDetail : FECAEDetResponse :=
  { Resultado := "A", CAE := "71234567890123", CAEFchVto := "20230110",
    CbteDesde := 55, Observaciones := none }

/-- A `FECAESolicitar` result whose single detail record is approved. -/
def approvedResult : FECAESolicitarResult :=
  { Errors := none, FECAEDetResponse := [approvedDetail] }

/-- The sales-point result carrying the no-results business error (602). -/
def noResultsPtosVenta : FEParamGetPtosVentaResult :=
  { Errors := some [{ Code := 602, Msg := "Sin Resultados" }], PtoVenta := [] }

/-- The no-results error list alone. -/
def noResultsErrs : List WsfeErr := [{ Code := 602, Msg := "Sin Resultados" }]

/-- A sample parsed login outcome. -/
def sampleRemote : RemoteLogin := { token := "TOK", sign := "SIG", expiration := 100 }

/-- The ticket `authenticate` builds from `sampleRemote`. -/
def sampleAuth : AfipAuth :=
  { token := "TOK", sign := "SIG", cuit := "20123456789", expiration := 100 }

/-- The empty authenticator state. -/
def st0w : AuthState := { cache := none, exchanges := 0 }

/-- The authenticator state after one remote exchange from `st0w`. -/
def st1w : AuthState := { cache := some (Except.ok sampleAuth), exchanges := 1 }

/-- A complete Zeep-object response shape. -/
def goodShape : WsaaShape :=
  WsaaShape.zeepObj (some "TOKEN") (some "SIGN") (some "2023-01-01T00:00:00")

/-- The credentials parsed from `goodShape`. -/
def goodAuth : WsaaAuthData :=
  { token := "TOKEN", sign := "SIGN", expiration := 1672531200 }

/-! ## Claim theorems -/

/-- C1: for every invoice authorization, when `get_last_voucher` returns
last voucher number `n`, the single detail record that `create_invoice`
builds and submits carries voucher number `n + 1` in both `CbteDesde` and
`CbteHasta`. -/
theorem C1_next_voucher (result : FECompUltimoResult) (n : ℤ)
    (req : InvoiceRequest) (date : String)
    (h : get_last_voucher result = .ok n) :
    (buildFeCAEReq req n date).det = [buildInvoiceDetail req n date] ∧
    (buildInvoiceDetail req n date).CbteDesde = n + 1 ∧
    (buildInvoiceDetail req n date).CbteHasta = n + 1 :=
  ⟨rfl, rfl, rfl⟩

/-- C1 witness: a last voucher of 54 yields `CbteDesde = CbteHasta = 55`. -/
theorem C1_next_voucher_witness :
    get_last_voucher { Errors := none, CbteNro := 54 } = .ok 54 ∧
    (buildInvoiceDetail sampleReq 54 "20230101").CbteDesde = 55 ∧
    (buildInvoiceDetail sampleReq 54 "20230101").CbteHasta = 55 :=
  ⟨rfl,
    (C1_next_voucher { Errors := none, CbteNro := 54 } 54 sampleReq "20230101" rfl).2.1,
    (C1_next_voucher { Errors := none, CbteNro := 54 } 54 sampleReq "20230101" rfl).2.2⟩

/-- C2 counterexample: on a response whose single detail record is rejected
(result code `R`) with no top-level error list, `create_invoice` does not
raise: it returns an `InvoiceResponse` (status `R`) carrying the
observations.  This refutes the claim that a rejected detail always raises
a `RemoteValidationRejection` and never returns. -/
theorem C2_rejected_counterexample :
    interpretCaeResult rejectedResult "20230101" =
      .ok { cae := "", cae_expiration := "", voucher_number := 55,
            voucher_date := "20230101", status := "R",
            observations := some ["[10048] Observacion de rechazo"],
            errors := none } ∧
    exceptIsOk (interpretCaeResult rejectedResult "20230101") = true :=
  ⟨rfl, rfl⟩

/-- C2 (amended): when the response carries no top-level error list and its
first detail record has a result code other than `A`, `create_invoice`
returns (rather than raises) an `InvoiceResponse` with status `R`, the
detail record's CAE fields, and the attached observations; only a top-level
error list makes it raise. -/
theorem C2_rejected_returns_R (result : FECAESolicitarResult)
    (d : FECAEDetResponse) (rest : List FECAEDetResponse) (date : String)
    (hE : result.Errors = none) (hD : result.FECAEDetResponse = d :: rest)
    (hR : d.Resultado ≠ "A") :
    interpretCaeResult result date =
      .ok { cae := d.CAE, cae_expiration := d.CAEFchVto,
            voucher_number := d.CbteDesde, voucher_date := date,
            status := "R",
            observations := collectObservations d.Observaciones,
            errors := none } := by
  unfold interpretCaeResult
  rw [hE, hD]
  simp [hR]

/-- C2 witness: the amended statement applied to the concrete rejected
response. -/
theorem C2_rejected_returns_R_witness :
    interpretCaeResult rejectedResult "20230101" =
      .ok { cae := rejectedDetail.CAE, cae_expiration := rejectedDetail.CAEFchVto,
            voucher_number := rejectedDetail.CbteDesde, voucher_date := "20230101",
            status := "R",
            observations := collectObservations rejectedDetail.Observaciones,
            errors := none } :=
  C2_rejected_returns_R rejectedResult rejectedDetail [] "20230101" rfl rfl (by decide)

/-- C3 (code bug): the total-consistency validator of
`FacturaRequestSchema` never fires.  Its guard requires `net_amount` and
`vat_amount` to be present in `values`, but pydantic hands a field
validator only the fields declared before the field under validation, and
both are declared after `total_amount`; so every total — including one that
violates the documented 0.01 tolerance by far — passes, and `create_invoice`
proceeds to the remote calls. -/
theorem C3_total_check_never_fires :
    (∀ v net vat non_tax exempt tributes : ℚ,
      validate_total_as_run v net vat non_tax exempt tributes = .ok v) ∧
    ("net_amount" ∈ valuesAvailableAt "total_amount") = False ∧
    1/100 < |(1000 : ℚ) - (100 + 21 + 0 + 0 + 0)| ∧
    validate_total_as_run 1000 100 21 0 0 0 = .ok 1000 := by
  refine ⟨fun v net vat non_tax exempt tributes => rfl, ?_, by norm_num, rfl⟩
  simp [valuesAvailableAt, facturaFieldOrder]

/-- C4: the cache read returns a ticket exactly when the stored entry
exists, deserializes, and its expiration is strictly in the future; a
missing, corrupt or expired entry is reported as absent (the function is
total — no exception propagates).  In particular an entry expiring at
`t0 + 1` read at `t0 + 2` is absent. -/
theorem C4_cache_get (entry : Option (Except String AfipAuth)) (now : ℤ) :
    (∀ a : AfipAuth, load_auth_from_cache entry now = some a ↔
      entry = some (.ok a) ∧ now < a.expiration) ∧
    (∀ tok sg cu t0,
      load_auth_from_cache (some (.ok ⟨tok, sg, cu, t0 + 1⟩)) (t0 + 2) = none) := by
  constructor
  · intro a
    match entry with
    | none => simp [load_auth_from_cache]
    | some (.error e) => simp [load_auth_from_cache]
    | some (.ok b) =>
        simp only [load_auth_from_cache, AfipAuth.is_valid, decide_eq_true_eq]
        split_ifs with hv
        · simp only [Option.some.injEq, Except.ok.injEq]
          constructor
          · rintro rfl; exact ⟨rfl, hv⟩
          · rintro ⟨rfl, _⟩; rfl
        · constructor
          · intro h; exact absurd h (by simp)
          · rintro ⟨hb, hlt⟩
            simp only [Option.some.injEq, Except.ok.injEq] at hb
            subst hb
            exact absurd hlt hv
  · intro tok sg cu t0
    simp only [load_auth_from_cache, AfipAuth.is_valid]
    have h21 : ¬ (t0 + 2 < t0 + 1) := by omega
    simp [h21]

/-- C4 witness: the cache characterization at a concrete valid entry and
at a concrete entry read one second past its expiration. -/
theorem C4_cache_get_witness :
    (load_auth_from_cache (some (Except.ok sampleAuth)) 50 = some sampleAuth ↔
      (some (Except.ok sampleAuth) : Option (Except String AfipAuth)) =
        some (Except.ok sampleAuth) ∧
      (50 : ℤ) < sampleAuth.expiration) ∧
    load_auth_from_cache
      (some (Except.ok (AfipAuth.mk "t" "s" "c" ((0 : ℤ) + 1))))
      ((0 : ℤ) + 2) = none :=
  ⟨(C4_cache_get (some (Except.ok sampleAuth)) 50).1 sampleAuth,
    (C4_cache_get none 0).2 "t" "s" "c" 0⟩

/-- C5: starting from an empty cache slot, a successful
`authenticate(service, force_new := false)` performs one remote exchange
and stores the ticket; a second call with `force_new := false` before the
returned ticket's expiration returns the very same ticket from the cache
and performs no further remote exchange — exactly one exchange across the
two calls. -/
theorem C5_single_exchange (st0 : AuthState) (cuit : String) (t1 t2 : ℤ)
    (remote : RemoteLogin) (a1 : AfipAuth) (st1 : AuthState)
    (h0 : st0.cache = none)
    (h1 : authenticate st0 cuit t1 false remote = (a1, st1))
    (h2 : t2 < a1.expiration) :
    authenticate st1 cuit t2 false remote = (a1, st1) ∧
    st1.exchanges = st0.exchanges + 1 := by
  rw [authenticate] at h1
  rw [h0] at h1
  simp only [load_auth_from_cache, if_false] at h1
  injection h1 with ha hst
  subst ha
  subst hst
  constructor
  · rw [authenticate]
    simp only [load_auth_from_cache, AfipAuth.is_valid, if_false]
    simp [h2]
  · rfl

/-- C5 witness: a concrete run of the two calls from the empty state. -/
theorem C5_single_exchange_witness :
    authenticate st1w "20123456789" 50 false sampleRemote = (sampleAuth, st1w) ∧
    st1w.exchanges = st0w.exchanges + 1 :=
  C5_single_exchange st0w "20123456789" 0 50 sampleRemote sampleAuth st1w
    rfl rfl (by decide)

/-- Every report of the generic handler mentions `Firma inválida`: the
verbatim branch by its guard, the wrapping branch because the wrapper text
begins with it. -/
theorem other_failure_mentions_firma (msg tyName : String) :
    strIncludes "Firma inválida" (handleAuthFailure (.other msg tyName)) = true := by
  rw [handleAuthFailure]
  by_cases hin : strIncludes "Firma inválida" msg = true
  · rw [if_pos hin]; exact hin
  · rw [if_neg hin]
    have base : strIncludes "Firma inválida"
        "Firma inválida o algoritmo no soportado (posible causa subyacente: " = true := by
      decide
    rw [strIncludes, decide_eq_true_iff] at base ⊢
    obtain ⟨s, t, hst⟩ := base
    refine ⟨s, t ++ (tyName ++ ")").data, ?_⟩
    have expand :
        ("Firma inválida o algoritmo no soportado (posible causa subyacente: "
          ++ tyName ++ ")").data =
        "Firma inválida o algoritmo no soportado (posible causa subyacente: ".data
          ++ (tyName ++ ")").data := by
      rw [string_data_append, string_data_append, string_data_append,
        List.append_assoc]
    rw [expand, ← hst]
    simp [List.append_assoc]

/-- C7: the failure reported on a connection-establishment timeout differs
from the one reported on a read timeout, and both differ from every report
of the generic handler (whether re-raised verbatim or wrapped): the three
kinds are distinct reportable conditions. -/
theorem C7_distinct_timeout_reports :
    handleAuthFailure .connectTimeout ≠ handleAuthFailure .readTimeout ∧
    (∀ msg tyName : String,
      handleAuthFailure (.other msg tyName) ≠ handleAuthFailure .connectTimeout) ∧
    (∀ msg tyName : String,
      handleAuthFailure (.other msg tyName) ≠ handleAuthFailure .readTimeout) := by
  refine ⟨by decide, ?_, ?_⟩
  · intro msg tyName h
    have hm := other_failure_mentions_firma msg tyName
    rw [h] at hm
    exact absurd hm (by decide)
  · intro msg tyName h
    have hm := other_failure_mentions_firma msg tyName
    rw [h] at hm
    exact absurd hm (by decide)

/-- C7 witness: the three reports at a concrete generic failure. -/
theorem C7_distinct_timeout_reports_witness :
    handleAuthFailure .connectTimeout ≠ handleAuthFailure .readTimeout ∧
    handleAuthFailure (.other "boom" "ValueError") ≠
      handleAuthFailure .connectTimeout ∧
    handleAuthFailure (.other "boom" "ValueError") ≠
      handleAuthFailure .readTimeout :=
  ⟨C7_distinct_timeout_reports.1,
    C7_distinct_timeout_reports.2.1 "boom" "ValueError",
    C7_distinct_timeout_reports.2.2 "boom" "ValueError"⟩

/-- C8 counterexample: in the non-production (testing) environment, the
no-results business response (code 602) makes `get_sales_points` raise the
formatted AFIP error — it does not return the claimed one-entry fallback
list (sales point 1, unblocked), nor any list at all. -/
theorem C8_no_fallback_counterexample :
    get_sales_points true noResultsPtosVenta =
      .error "Error de AFIP: [602] Sin Resultados" ∧
    exceptIsOk (get_sales_points true noResultsPtosVenta) = false :=
  ⟨rfl, rfl⟩

/-- C8 (amended): `get_sales_points` has no environment-specific fallback:
in testing and production alike, a present error list — the no-results
business response included — propagates as the formatted AFIP error, and
the remote list is returned unchanged otherwise. -/
theorem C8_error_propagates (testing : Bool)
    (result : FEParamGetPtosVentaResult) (errs : List WsfeErr)
    (hE : result.Errors = some errs) :
    get_sales_points testing result =
      .error ("Error de AFIP: " ++ format_wsfe_error (some errs)) := by
  rw [get_sales_points, hE]

/-- C8 witness: the amended statement at the concrete no-results response,
in both environments. -/
theorem C8_error_propagates_witness :
    get_sales_points true noResultsPtosVenta =
      .error ("Error de AFIP: " ++
        format_wsfe_error (some [{ Code := 602, Msg := "Sin Resultados" }])) ∧
    get_sales_points false noResultsPtosVenta =
      .error ("Error de AFIP: " ++
        format_wsfe_error (some [{ Code := 602, Msg := "Sin Resultados" }])) :=
  ⟨C8_error_propagates true noResultsPtosVenta
      [{ Code := 602, Msg := "Sin Resultados" }] rfl,
    C8_error_propagates false noResultsPtosVenta
      [{ Code := 602, Msg := "Sin Resultados" }] rfl⟩

/-- C9: whenever the authorization response has no top-level error list
(and a first detail record exists), `create_invoice` returns an
`InvoiceResponse` whose status is `A` or `R`, and it is `A` exactly when
the detail result code equals `A`. -/
theorem C9_status_A_or_R (result : FECAESolicitarResult)
    (d : FECAEDetResponse) (rest : List FECAEDetResponse) (date : String)
    (hE : result.Errors = none) (hD : result.FECAEDetResponse = d :: rest) :
    ∃ resp : InvoiceResponse,
      interpretCaeResult result date = .ok resp ∧
      (resp.status = "A" ∨ resp.status = "R") ∧
      (resp.status = "A" ↔ d.Resultado = "A") := by
  refine ⟨{ cae := d.CAE, cae_expiration := d.CAEFchVto,
            voucher_number := d.CbteDesde, voucher_date := date,
            status := if d.Resultado = "A" then "A" else "R",
            observations := collectObservations d.Observaciones,
            errors := none }, ?_, ?_, ?_⟩
  · rw [interpretCaeResult, hE, hD]
    simp [List.head?]
  · by_cases h : d.Resultado = "A"
    · left; simp [h]
    · right; simp [h]
  · by_cases h : d.Resultado = "A" <;> simp [h]

/-- C9 witness: a concrete approved response. -/
theorem C9_status_A_or_R_witness :
    ∃ resp : InvoiceResponse,
      interpretCaeResult approvedResult "20230101" = .ok resp ∧
      (resp.status = "A" ∨ resp.status = "R") ∧
      (resp.status = "A" ↔ approvedDetail.Resultado = "A") :=
  C9_status_A_or_R approvedResult approvedDetail [] "20230101" rfl rfl

/-- C10: in every response shape, a ticket is produced only when both a
token and a signature were extracted and non-empty: a missing or empty
token or signature makes the parser raise, and a successful parse returns
exactly the extracted token and signature (never partial credentials). -/
theorem C10_credentials_all_or_nothing (shape : WsaaShape) (auth : WsaaAuthData) :
    ((pyFalsy (wsaaToken shape) = true ∨ pyFalsy (wsaaSign shape) = true) →
      parse_wsaa_response shape = .error "No se pudo extraer Token/Sign") ∧
    (parse_wsaa_response shape = .ok auth →
      pyFalsy (wsaaToken shape) = false ∧ pyFalsy (wsaaSign shape) = false ∧
      auth.token = (wsaaToken shape).getD "" ∧
      auth.sign = (wsaaSign shape).getD "") := by
  constructor
  · intro h
    rw [parse_wsaa_response]
    have hor : (pyFalsy (wsaaToken shape) || pyFalsy (wsaaSign shape)) = true := by
      rcases h with h | h <;> simp [h]
    simp only [hor, if_true]
  · intro h
    rw [parse_wsaa_response] at h
    by_cases hf : (pyFalsy (wsaaToken shape) || pyFalsy (wsaaSign shape)) = true
    · rw [if_pos hf] at h; exact absurd h (by simp)
    · rw [if_neg hf] at h
      rw [Bool.or_eq_true] at hf
      push_neg at hf
      have ht : pyFalsy (wsaaToken shape) = false := by simpa using hf.1
      have hs : pyFalsy (wsaaSign shape) = false := by simpa using hf.2
      refine ⟨ht, hs, ?_, ?_⟩ <;>
      · rcases hm : wsaaExpiration shape with _ | es
        · rw [hm] at h
          exact absurd
            (show Except.error "TypeError: strptime argument must be str" =
              Except.ok auth from h) (by simp)
        · rw [hm] at h
          have h2 : finishParse ((wsaaToken shape).getD "")
              ((wsaaSign shape).getD "") (parseTimestamp (truncate19 es)) =
              Except.ok auth := h
          rcases hp : parseTimestamp (truncate19 es) with _ | ts
          · rw [hp] at h2
            exact absurd
              (show Except.error "ValueError: time data does not match format" =
                Except.ok auth from h2) (by simp)
          · rw [hp] at h2
            have h3 : Except.ok (WsaaAuthData.mk ((wsaaToken shape).getD "")
                ((wsaaSign shape).getD "") ts) = Except.ok auth := h2
            injection h3 with h4
            rw [← h4]

/-- C10 witness: a falsy-token shape raises; a complete Zeep-object shape
parses into exactly the extracted credentials. -/
theorem C10_credentials_witness :
    parse_wsaa_response (.rawXml none (some "SG") (some "2023-01-01T00:00:00")) =
      .error "No se pudo extraer Token/Sign" ∧
    (pyFalsy (wsaaToken goodShape) = false ∧
      pyFalsy (wsaaSign goodShape) = false ∧
      goodAuth.token = (wsaaToken goodShape).getD "" ∧
      goodAuth.sign = (wsaaSign goodShape).getD "") :=
  ⟨(C10_credentials_all_or_nothing
      (.rawXml none (some "SG") (some "2023-01-01T00:00:00"))
      { token := "", sign := "", expiration := 0 }).1 (Or.inl rfl),
    (C10_credentials_all_or_nothing goodShape goodAuth).2 (by rfl)⟩

/-! ## C6: contents and format of the TRA document -/

/-- A digit character below ten renders as a decimal digit. -/
theorem digitChar_isDigit (d : ℕ) (h : d < 10) : (digitChar d).isDigit = true := by
  interval_cases d <;> decide

/-- For the day counts reachable before year 10000, the civil conversion
yields fields small enough for exact fixed-width rendering. -/
theorem civil_bounds (days : ℕ) (h : days < 2932897) :
    (civilFromDays days).year < 10000 ∧ (civilFromDays days).month < 100 ∧
    (civilFromDays days).day < 100 := by
  unfold civilFromDays
  dsimp only
  split_ifs <;> refine ⟨?_, ?_, ?_⟩ <;> omega

/-- Up to year 10000, the timestamp rendering always has the shape
`YYYY-MM-DDTHH:MM:SS`. -/
theorem fmtTimestamp_format (t : ℕ) (h : t < 253402300800) :
    isTimestampFormat (fmtTimestamp t) = true := by
  obtain ⟨hy, hmo, hd⟩ := civil_bounds (t / 86400) (by omega)
  rw [fmtTimestamp]
  simp only [pad4, pad2, List.cons_append, List.nil_append]
  rw [isTimestampFormat]
  simp only [List.all_cons, List.all_nil, Bool.and_eq_true, beq_self_eq_true,
    and_true, true_and]
  repeat' apply And.intro
  all_goals apply digitChar_isDigit
  all_goals omega

/-- C6: for every sub-service name and every ttl, the TRA document built by
`create_tra_xml` contains a uniqueId (derived from the shifted clock), a
generationTime, an expirationTime that renders the generation instant plus
`ttl` seconds, and the sub-service name, with both timestamps rendered in
the `YYYY-MM-DDTHH:MM:SS` format.  The hypothesis keeps the expiration
below year 10000, where the four-digit year rendering is exact. -/
theorem C6_tra_xml_contents (service : String) (ttl nowArg : ℕ)
    (h : nowArg - 600 + ttl < 253402300800) :
    strContains (create_tra_xml service ttl nowArg)
      ("<uniqueId>" ++ toString (nowArg - 600) ++ "</uniqueId>") ∧
    strContains (create_tra_xml service ttl nowArg)
      ("<generationTime>" ++ fmtTimestamp (nowArg - 600) ++ "</generationTime>") ∧
    strContains (create_tra_xml service ttl nowArg)
      ("<expirationTime>" ++ fmtTimestamp (nowArg - 600 + ttl) ++
        "</expirationTime>") ∧
    strContains (create_tra_xml service ttl nowArg)
      ("<service>" ++ service ++ "</service>") ∧
    isTimestampFormat (fmtTimestamp (nowArg - 600)) = true ∧
    isTimestampFormat (fmtTimestamp (nowArg - 600 + ttl)) = true := by
  refine ⟨?_, ?_, ?_, ?_, fmtTimestamp_format _ (by omega), fmtTimestamp_format _ h⟩
  · rw [strContains]
    refine ⟨("<?xml version=\"1.0\" encoding=\"UTF-8\"?>\n" ++
        "<loginTicketRequest version=\"1.0\">\n" ++ "    <header>\n" ++
        "        ").data,
      ("\n" ++ "        " ++ "<generationTime>" ++
        fmtTimestamp (nowArg - 600) ++ "</generationTime>" ++ "\n" ++
        "        " ++ "<expirationTime>" ++ fmtTimestamp (nowArg - 600 + ttl) ++
        "</expirationTime>" ++ "\n" ++ "    </header>\n" ++ "    " ++
        "<service>" ++ service ++ "</service>" ++ "\n" ++
        "</loginTicketRequest>").data, ?_⟩
    simp only [create_tra_xml, string_data_append, List.append_assoc]
  · rw [strContains]
    refine ⟨("<?xml version=\"1.0\" encoding=\"UTF-8\"?>\n" ++
        "<loginTicketRequest version=\"1.0\">\n" ++ "    <header>\n" ++
        "        " ++ "<uniqueId>" ++ toString (nowArg - 600) ++
        "</uniqueId>" ++ "\n" ++ "        ").data,
      ("\n" ++ "        " ++ "<expirationTime>" ++
        fmtTimestamp (nowArg - 600 + ttl) ++ "</expirationTime>" ++ "\n" ++
        "    </header>\n" ++ "    " ++ "<service>" ++ service ++
        "</service>" ++ "\n" ++ "</loginTicketRequest>").data, ?_⟩
    simp only [create_tra_xml, string_data_append, List.append_assoc]
  · rw [strContains]
    refine ⟨("<?xml version=\"1.0\" encoding=\"UTF-8\"?>\n" ++
        "<loginTicketRequest version=\"1.0\">\n" ++ "    <header>\n" ++
        "        " ++ "<uniqueId>" ++ toString (nowArg - 600) ++
        "</uniqueId>" ++ "\n" ++ "        " ++ "<generationTime>" ++
        fmtTimestamp (nowArg - 600) ++ "</generationTime>" ++ "\n" ++
        "        ").data,
      ("\n" ++ "    </header>\n" ++ "    " ++ "<service>" ++ service ++
        "</service>" ++ "\n" ++ "</loginTicketRequest>").data, ?_⟩
    simp only [create_tra_xml, string_data_append, List.append_assoc]
  · rw [strContains]
    refine ⟨("<?xml version=\"1.0\" encoding=\"UTF-8\"?>\n" ++
        "<loginTicketRequest version=\"1.0\">\n" ++ "    <header>\n" ++
        "        " ++ "<uniqueId>" ++ toString (nowArg - 600) ++
        "</uniqueId>" ++ "\n" ++ "        " ++ "<generationTime>" ++
        fmtTimestamp (nowArg - 600) ++ "</generationTime>" ++ "\n" ++
        "        " ++ "<expirationTime>" ++ fmtTimestamp (nowArg - 600 + ttl) ++
        "</expirationTime>" ++ "\n" ++ "    </header>\n" ++ "    ").data,
      ("\n" ++ "</loginTicketRequest>").data, ?_⟩
    simp only [create_tra_xml, string_data_append, List.append_assoc]

/-- C6 witness: the TRA for `wsfe` with the default 2400-second ttl at a
concrete clock reading. -/
theorem C6_tra_xml_contents_witness :
    strContains (create_tra_xml "wsfe" 2400 1672532400)
      ("<uniqueId>" ++ toString (1672532400 - 600) ++ "</uniqueId>") ∧
    strContains (create_tra_xml "wsfe" 2400 1672532400)
      ("<generationTime>" ++ fmtTimestamp (1672532400 - 600) ++
        "</generationTime>") ∧
    strContains (create_tra_xml "wsfe" 2400 1672532400)
      ("<expirationTime>" ++ fmtTimestamp (1672532400 - 600 + 2400) ++
        "</expirationTime>") ∧
    strContains (create_tra_xml "wsfe" 2400 1672532400)
      ("<service>" ++ "wsfe" ++ "</service>") ∧
    isTimestampFormat (fmtTimestamp (1672532400 - 600)) = true ∧
    isTimestampFormat (fmtTimestamp (1672532400 - 600 + 2400)) = true :=
  C6_tra_xml_contents "wsfe" 2400 1672532400 (by decide)

end Facturacion
